import Mathlib

/-!
Verification of the enet-subscriber-tracer ingestion pipeline.

Shallow embedding of the Python sources under `src/Tools/` (and `src/`):
pure parsing and decoding functions become Lean functions; the stateful
processing loops (`process_log_file`, `backfill`, the tail watchers) become
explicit state-passing functions over small state types, with I/O failure
points (database errors, audit failure, file deletion failure) injected
through explicit environment flags; code that raises an uncaught Python
exception is modelled with `Except`/`PyResult`-style result types.

External collaborators that are not part of the repository's own code
(`datetime` parsing, `decode_location_info` — imported from
`Tools.cell_mapper`, which does not define it — the device-model lookup,
and the database's row counting) are passed in as explicit oracle
parameters, so the theorems quantify over them.

The file is organised as: all definitions first, then all theorems.
-/

namespace EnetTracer

/-- Result of running a fragment of Python code that may raise an uncaught
exception (e.g. `ValueError` from `int(s, 16)`): `ok` is a normal return,
`exn` models the exception propagating to the caller. -/
inductive PyResult (α : Type) where
  | ok (a : α)
  | exn
deriving DecidableEq, Repr

/-! ### Python string primitives -/

/-- Value of a single hexadecimal digit, as accepted by Python `int(_, 16)`. -/
def hexDigitVal? (c : Char) : Option Nat :=
  if '0' ≤ c ∧ c ≤ '9' then some (c.toNat - '0'.toNat)
  else if 'a' ≤ c ∧ c ≤ 'f' then some (c.toNat - 'a'.toNat + 10)
  else if 'A' ≤ c ∧ c ≤ 'F' then some (c.toNat - 'A'.toNat + 10)
  else none

/-- Accumulating evaluation of a hex-digit list; `none` as soon as a
non-hex character is met. -/
def hexValAux : List Char → Nat → Option Nat
  | [], acc => some acc
  | c :: cs, acc =>
      match hexDigitVal? c with
      | some d => hexValAux cs (acc * 16 + d)
      | none => none

/-- Python `int(s, 16)` on the strings this code feeds it: an optional
`0x`/`0X` prefix followed by a non-empty run of hex digits; anything else
(in particular the empty string) raises `ValueError`, modelled as `none`.
(Python's tolerance for surrounding whitespace, a sign, and `_` digit
grouping is not exercised by any call site and is not modelled.) -/
def pyIntHex? (s : List Char) : Option Nat :=
  let body :=
    match s with
    | '0' :: 'x' :: rest => rest
    | '0' :: 'X' :: rest => rest
    | other => other
  match body with
  | [] => none
  | _ => hexValAux body 0

/-- Python `s.replace("0x", "")`: delete every non-overlapping occurrence of
`0x`, scanning left to right. -/
def replace0x : List Char → List Char
  | '0' :: 'x' :: rest => replace0x rest
  | c :: rest => c :: replace0x rest
  | [] => []

/-- Python `s.replace("0X", "")`: delete every non-overlapping occurrence of
`0X`, scanning left to right. -/
def replace0X : List Char → List Char
  | '0' :: 'X' :: rest => replace0X rest
  | c :: rest => c :: replace0X rest
  | [] => []

/-- Python `str.strip()` with no argument: remove leading and trailing
whitespace (the rarely-used `\v`/`\f`/Unicode space cases are not
modelled). -/
def pyStrip (s : List Char) : List Char :=
  ((s.dropWhile Char.isWhitespace).reverse.dropWhile Char.isWhitespace).reverse

/-- `str.strip()` packaged on `String`. -/
def pyStripS (s : String) : String :=
  String.mk (pyStrip s.data)

/-- Python `s.split("|")`: split on every `|`, keeping empty fields, and
always returning at least one field. -/
def pySplitPipe : List Char → List (List Char)
  | [] => [[]]
  | '|' :: rest => [] :: pySplitPipe rest
  | c :: rest =>
      match pySplitPipe rest with
      | g :: gs => (c :: g) :: gs
      | [] => [[c]]

/-- Accumulating evaluation of a decimal-digit list. -/
def decValAux : List Char → Nat → Option Nat
  | [], acc => some acc
  | c :: cs, acc =>
      if '0' ≤ c ∧ c ≤ '9' then decValAux cs (acc * 10 + (c.toNat - '0'.toNat))
      else none

/-- Python `int(s)` on the checkpoint position field: surrounding
whitespace stripped, an optional sign, then a non-empty run of decimal
digits; anything else raises `ValueError`, modelled as `none` (Python's
`_` digit grouping is not modelled). -/
def pyInt? (s : List Char) : Option Int :=
  let signed : Bool × List Char :=
    match pyStrip s with
    | '-' :: rest => (true, rest)
    | '+' :: rest => (false, rest)
    | other => (false, other)
  match signed.2 with
  | [] => none
  | body =>
      match decValAux body 0 with
      | none => none
      | some n => some (if signed.1 then -(n : Int) else (n : Int))

/-! ### Location decoding (radius_parser.py, backfill_radius_history.py) -/

/-- `decode_enodeb_cellid` from `src/Tools/backfill_radius_history.py`
(lines 332-339); byte-identical copies live in
`src/Tools/parse_radius_logs_debug.py` and `src/Tools/trace_incremental.py`.
Strips a single leading `0x`, takes the last 8 characters (`uli_hex[-8:]`,
which yields the whole string when it is shorter than 8), parses them with
`int(_, 16)` — an exception from which propagates to the caller (`.exn`) —
and splits the value as `eci >> 8` / `eci & 0xFF`. -/
def decode_enodeb_cellid (uli_hex : String) : PyResult (Nat × Nat) :=
  let chars := uli_hex.data
  let chars := if chars.take 2 = ['0', 'x'] then chars.drop 2 else chars
  let eci_hex := chars.drop (chars.length - 8)
  match pyIntHex? eci_hex with
  | none => .exn
  | some eci => .ok (eci >>> 8, eci &&& 0xFF)

/-- The dictionary returned by `decode_eci` in `src/Tools/radius_parser.py`. -/
structure EciDecode where
  enodeb_id : Nat
  cell_id : Nat
  eci : Nat
deriving DecidableEq, Repr

/-- `decode_eci` from `src/Tools/radius_parser.py` (lines 36-58): removes
every `0x` and `0X` substring, returns `None` when fewer than 8 characters
remain, otherwise parses the last 8 characters; the surrounding
`try/except` converts any exception into `None`. -/
def decode_eci (location_hex : String) : Option EciDecode :=
  let hex_clean := replace0X (replace0x location_hex.data)
  if hex_clean.length < 8 then none
  else
    let eci_hex := hex_clean.drop (hex_clean.length - 8)
    match pyIntHex? eci_hex with
    | none => none
    | some eci => some ⟨(eci >>> 8) &&& 0xFFFFF, eci &&& 0xFF, eci⟩

/-! ### Progress tracking (`ProgressTracker` in backfill_radius_history.py) -/

/-- Outcome of one line of the checkpoint file inside
`ProgressTracker.load` (backfill_radius_history.py lines 395-408): the
walrus-guarded dict comprehension keeps a line only when
`line.strip().split("|")` has exactly two fields (`skip` otherwise), and
then evaluates `int(parts[1])`, whose `ValueError` (`err`) escapes the
comprehension into the surrounding `except`. -/
inductive CheckpointLine where
  | entry (file : String) (pos : Int)
  | skip
  | err
deriving DecidableEq, Repr

/-- Classification of one checkpoint-file line, following the comprehension
`{parts[0]: int(parts[1]) for line in f if (parts := line.strip().split("|")) and len(parts) == 2}`
(`parts` is always a non-empty list, hence always truthy). -/
def parseCheckpointLine (line : String) : CheckpointLine :=
  match pySplitPipe (pyStrip line.data) with
  | [f, p] =>
      match pyInt? p with
      | some n => .entry (String.mk f) n
      | none => .err
  | _ => .skip

/-- `ProgressTracker.load`: returns the checkpoint entries in file order
(the Python dict applies last-write-wins per key on top of this); if any
kept line's position fails `int()`, the exception is caught by the
surrounding `try/except` and the whole result is the empty mapping. -/
def ProgressTracker.load (lines : List String) : List (String × Int) :=
  if lines.any (fun l => parseCheckpointLine l == .err) then []
  else
    lines.filterMap (fun l =>
      match parseCheckpointLine l with
      | .entry f p => some (f, p)
      | _ => none)

/-- Python `dict(...).get(k, d)` over the entry list produced by
`ProgressTracker.load`: last binding per key wins. -/
def dictGetD (m : List (String × Int)) (k : String) (d : Int) : Int :=
  match (m.filter (fun p => p.1 == k)).getLast? with
  | some p => p.2
  | none => d

/-! ### Tail mode (radius_watcher.py and radius_watcher_old.py) -/

/-- The record-boundary test of both tail watchers:
`line and not line[0].isspace() and line.strip()` — a new record starts at
a non-empty line whose first character is not whitespace and which is not
blank after stripping. -/
def isRecordStart (line : String) : Bool :=
  match line.data with
  | [] => false
  | c :: _ => !c.isWhitespace && !(pyStrip line.data).isEmpty

/-- One line of the shared tail loop body (radius_watcher.py lines 93-103,
radius_watcher_old.py lines 95-105): on a record-start line, the buffered
block is closed (handed to `parse_radius_record`; empty buffers are not) and
the buffer is reset; any other line is appended to the buffer. State is
(closed blocks so far, current buffer). -/
def tailStep : List (List String) × List String → String → List (List String) × List String
  | (records, current), line =>
    if isRecordStart line then
      (if current.isEmpty then records else records ++ [current], [])
    else (records, current ++ [line])

/-- `RadiusWatcher.process_file` (radius_watcher.py lines 68-112), one poll
slice: the loop starts from a fresh local `current_record = []`, and after
the loop only the file position is kept — the closed blocks are returned
and the trailing buffer is discarded. -/
def watcherPollBlocks (lines : List String) : List (List String) :=
  (lines.foldl tailStep ([], [])).1

/-- `RadiusFileHandler.process_new_lines` (radius_watcher_old.py lines
73-125), one poll slice: the buffer `self.buffer[filepath]` persists on the
handler across calls, so the slice starts from the carried-over buffer and
the new buffer is returned alongside the closed blocks. -/
def oldPollRun (buffer : List String) (lines : List String) :
    List (List String) × List String :=
  lines.foldl tailStep ([], buffer)

/-! ### Record building (`build_record` in backfill_radius_history.py) -/

/-- A `RawEntry`: the attribute dictionary parsed from one blank-line
delimited block (`parse_entry`); first binding per key wins, as in a dict
built by successive assignment where re-parsed keys overwrite — the lookup
here models `entry.get`. -/
abbrev RawEntry := List (String × String)

/-- Python `entry.get(k)`: first matching binding. -/
def pyGet? (entry : RawEntry) (k : String) : Option String :=
  match entry.filter (fun p => p.1 == k) with
  | [] => none
  | p :: _ => some p.2

/-- Python `entry.get(k, default)`. -/
def pyGetD (entry : RawEntry) (k : String) (d : String) : String :=
  match pyGet? entry k with
  | some v => v
  | none => d

/-- The tuple produced by `decode_location_info` (imported from
`Tools.cell_mapper`, which does not itself define it — the lookup is an
external collaborator here), as consumed by `build_record`:
`tower, enodeb, cell_id, lat, lon`. -/
structure LocData where
  tower : String
  enodeb : Nat
  cell : Nat
  lat : Float
  lon : Float

/-- Oracle environment for the parts of `build_record` that call outside
the repository's own code: `process_timestamp` (datetime parsing and the
same-day filter), `process_location` (`decode_location_info` plus its
guards), `lookup_device_model`, and the pydantic `timestamp` field
validator's format check. -/
structure BuildEnv where
  process_timestamp : String → Option String
  process_location : String → Option LocData
  lookup_device_model : String → String
  timestamp_format_ok : String → Bool

/-- The pydantic `RadiusRecord` model of backfill_radius_history.py
(lines 55-80). -/
structure RadiusRecord where
  msisdn : String
  imsi : String
  enodeb_id : String
  cell_id : String
  tower_name : String
  lat : Float
  lon : Float
  timestamp : String
  device_model : String

/-- `build_record` from backfill_radius_history.py (lines 341-379):
extract and strip the five attributes (`3GPP-IMSI or User-Name` with
Python `or` falsiness on the empty string), reject when any of
{msisdn, raw_loc, raw_ts} is empty, then timestamp processing, location
processing, device-model lookup on the 8-character IMEI prefix, and the
pydantic validators (msisdn length ≥ 10; timestamp format), whose
`ValidationError` is caught and turned into `None`. -/
def build_record (env : BuildEnv) (entry : RawEntry) : Option RadiusRecord :=
  let msisdn := pyStripS (pyGetD entry "Calling-Station-Id" "")
  let imsi := pyStripS
    (match pyGet? entry "3GPP-IMSI" with
     | some v => if v = "" then pyGetD entry "User-Name" "" else v
     | none => pyGetD entry "User-Name" "")
  let raw_loc := pyStripS (pyGetD entry "3GPP-User-Location-Info" "")
  let raw_ts := pyStripS (pyGetD entry "Event-Timestamp" "")
  let imei_raw := pyStripS (pyGetD entry "3GPP-IMEISV" "")
  if msisdn = "" ∨ raw_loc = "" ∨ raw_ts = "" then none
  else
    match env.process_timestamp raw_ts with
    | none => none
    | some timestamp =>
        match env.process_location raw_loc with
        | none => none
        | some loc =>
            let model :=
              if imei_raw ≠ "" then env.lookup_device_model (String.mk (imei_raw.data.take 8))
              else "Unknown"
            if msisdn.length < 10 ∨ env.timestamp_format_ok timestamp = false then none
            else some
              { msisdn := msisdn, imsi := imsi,
                enodeb_id := toString loc.enodeb, cell_id := toString loc.cell,
                tower_name := loc.tower, lat := loc.lat, lon := loc.lon,
                timestamp := timestamp, device_model := model }

/-! ### `process_log_file` (backfill_radius_history.py lines 418-475) -/

/-- Observable actions of one `process_log_file` run, in program order. -/
inductive FEvent where
  | flushed (count : Nat)
  | checkpointSaved (file : String) (pos : Nat)
  | bulkInsertFailed
  | auditFailed (file : String)
  | auditCommitted (file : String)
  | fileDeleted (file : String)
deriving DecidableEq, Repr

/-- Environment of a `process_log_file` run: the build oracles, the number
of rows `bulk_insert_records` reports (the cursor's row count), and
failure injection for the database writes (`bulk_fails k` — the k-th bulk
insert raises), the audit insert, and the `Path.unlink` call. -/
structure PEnv where
  benv : BuildEnv
  bulk_inserted : List RadiusRecord → Nat
  bulk_fails : Nat → Bool
  audit_fails : Bool
  delete_fails : Bool

/-- `Config.BATCH_SIZE` (backfill_radius_history.py line 45). -/
def BATCH_SIZE : Nat := 1000

/-- Mutable state of the `process_log_file` loop: the pending batch, the
`processed`/`inserted` counters, the number of bulk inserts executed so
far, and the observable event trace. -/
structure PState where
  batch : List RadiusRecord
  processed : Nat
  inserted : Nat
  flushes : Nat
  events : List FEvent

/-- Initial loop state. -/
def pInit : PState := ⟨[], 0, 0, 0, []⟩

/-- One iteration of the `for entry_num, entry_lines in enumerate(...)`
loop (lines 430-444): build the record; on success append it to the batch
and increment `processed`; when the batch is full, run
`bulk_insert_records` (which may raise — `.error` aborts the whole file),
clear the batch, and `tracker.save(log_file, entry_num + 1)`. A rejected
entry changes nothing. -/
def entry_step (env : PEnv) (logFile : String) (entryNum : Nat) (s : PState)
    (entry : RawEntry) : Except PState PState :=
  match build_record env.benv entry with
  | none => .ok s
  | some record =>
      let batch := s.batch ++ [record]
      let processed := s.processed + 1
      if BATCH_SIZE ≤ batch.length then
        if env.bulk_fails s.flushes then
          .error { s with
              batch := batch, processed := processed,
              events := s.events ++ [.bulkInsertFailed] }
        else
          .ok { batch := [], processed := processed,
                inserted := s.inserted + env.bulk_inserted batch,
                flushes := s.flushes + 1,
                events := s.events ++
                  [.flushed batch.length, .checkpointSaved logFile (entryNum + 1)] }
      else .ok { s with batch := batch, processed := processed }

/-- The whole entry loop, threading the entry index. -/
def runEntries (env : PEnv) (logFile : String) :
    PState → Nat → List RawEntry → Except PState PState
  | s, _, [] => .ok s
  | s, n, e :: rest =>
      match entry_step env logFile n s e with
      | .error s' => .error s'
      | .ok s' => runEntries env logFile s' (n + 1) rest

/-- The `if batch: inserted += bulk_insert_records(batch)` epilogue (lines
447-448): note there is no `tracker.save` after the final flush. -/
def finalFlush (env : PEnv) (s : PState) : Except PState PState :=
  if s.batch.isEmpty then .ok s
  else if env.bulk_fails s.flushes then
    .error { s with events := s.events ++ [.bulkInsertFailed] }
  else
    .ok { s with
        batch := [],
        inserted := s.inserted + env.bulk_inserted s.batch,
        flushes := s.flushes + 1,
        events := s.events ++ [.flushed s.batch.length] }

/-- The completion epilogue (lines 450-469): the audit insert + commit —
whose exception propagates out of `process_log_file` (the outer `except`
re-raises) — followed by `Path(log_file).unlink()` in its own
`try/except`, so a deletion failure is logged and swallowed. -/
def auditAndDelete (env : PEnv) (logFile : String) (s : PState) :
    Except PState (PState × Nat × Nat) :=
  if env.audit_fails then
    .error { s with events := s.events ++ [.auditFailed logFile] }
  else
    let s2 := { s with events := s.events ++ [.auditCommitted logFile] }
    let s3 := if env.delete_fails then s2
              else { s2 with events := s2.events ++ [.fileDeleted logFile] }
    .ok (s3, s3.processed, s3.inserted)

/-- `process_log_file` (lines 418-475): loads the tracker (the resulting
`resume_pos` is only interpolated into a log line — the entry loop below
starts from the beginning of the file regardless), runs the entry loop,
the final flush, and the audit/delete epilogue; returns
`(processed, inserted)` on success and the exception state otherwise. -/
def process_log_file (env : PEnv) (checkpointLines : List String)
    (logFile : String) (entries : List RawEntry) :
    Except PState (PState × Nat × Nat) :=
  let resume_pos := dictGetD (ProgressTracker.load checkpointLines) logFile 0
  match runEntries env logFile pInit 0 entries with
  | .error s => .error s
  | .ok s =>
      match finalFlush env s with
      | .error s' => .error s'
      | .ok s' => auditAndDelete env logFile s'

/-- State carried by either branch of the loop's `Except`. -/
def pstateOf : Except PState PState → PState
  | .error s => s
  | .ok s => s

/-- Event trace of a completed or aborted `process_log_file` run. -/
def eventsOf : Except PState (PState × Nat × Nat) → List FEvent
  | .error s => s.events
  | .ok (s, _, _) => s.events

/-- `processed` counter of a completed or aborted run. -/
def processedOf : Except PState (PState × Nat × Nat) → Nat
  | .error s => s.processed
  | .ok (_, p, _) => p

/-- Events the entry loop itself can emit (everything except the
audit/delete epilogue's events). -/
def isLoopEvent : FEvent → Bool
  | .flushed _ => true
  | .checkpointSaved _ _ => true
  | .bulkInsertFailed => true
  | _ => false

/-! ### Batch persistence commit structure (C2) -/

/-- The two logical tables of one batch write. -/
inductive TableWrite where
  | history
  | latest
deriving DecidableEq, Repr

/-- Database operations a batch-persistence function issues on its
connection, in program order. -/
inductive DbOp where
  | execHistory
  | execLatest
  | commit
  | rollback
deriving DecidableEq, Repr

/-- `bulk_insert_records` (backfill_radius_history.py lines 196-248): both
`executemany` statements on one connection, then a single
`conn.commit()`; its `except` clause only logs and re-raises, so there is
no handled-error continuation — an exception before the commit simply
leaves the transaction uncommitted. -/
def bulk_insert_records_ops : List DbOp :=
  [.execHistory, .execLatest, .commit]

/-- Per-batch failure injection for the two helpers of
`radius_parser.process_file`: whether the `execute_values` call inside
`upsert_latest_traces` raises a database error, and likewise for
`insert_radius_history`. Both helpers CATCH such an error, log it, call
`conn.rollback()` and return 0 — they do not re-raise, so `process_file`
continues with the rest of the batch pipeline. -/
structure BatchFailures where
  latestExecFails : Bool
  historyExecFails : Bool

/-- `upsert_latest_traces` (radius_parser.py lines 138-197): on success,
the latest-state `execute_values` followed by its own `conn.commit()`; on
a database error, the raising statement applies no rows (statement
atomicity), and the `except` branch (lines 192-197) rolls back and
returns 0 instead of re-raising. -/
def upsert_latest_traces_ops (execFails : Bool) : List DbOp :=
  if execFails then [.rollback] else [.execLatest, .commit]

/-- `insert_radius_history` (radius_parser.py lines 200-252): same shape —
`execute_values` then `conn.commit()`, with the `except` branch (lines
247-252) rolling back and returning 0. -/
def insert_radius_history_ops (execFails : Bool) : List DbOp :=
  if execFails then [.rollback] else [.execHistory, .commit]

/-- One batch of `radius_parser.process_file` (lines 255-285):
`upsert_latest_traces(batch, conn)` then — unconditionally, the returned
count is only added to a statistic — `insert_radius_history(batch, conn)`
on the shared connection: two separate transactions, and a handled
failure of the first does not stop the second. -/
def parser_batch_ops (f : BatchFailures) : List DbOp :=
  upsert_latest_traces_ops f.latestExecFails ++
    insert_radius_history_ops f.historyExecFails

/-- Transaction semantics: run a list of operations with a pending buffer;
`commit` makes the pending writes durable, `rollback` discards them. -/
def runOps : List DbOp → List TableWrite → List TableWrite → List TableWrite
  | [], committed, _pending => committed
  | .execHistory :: rest, committed, pending => runOps rest committed (pending ++ [.history])
  | .execLatest :: rest, committed, pending => runOps rest committed (pending ++ [.latest])
  | .commit :: rest, committed, pending => runOps rest (committed ++ pending) []
  | .rollback :: rest, committed, _pending => runOps rest committed []

/-- Table writes durably visible when the process stops (crashes) just
before the k-th operation: uncommitted pending writes are lost. -/
def committedWrites (ops : List DbOp) (k : Nat) : List TableWrite :=
  runOps (ops.take k) [] []

/-! ### Latest-state upsert conflict policies (C3) -/

/-- A stored row of the `latest_traces` table. -/
structure LatestRow where
  msisdn : String
  imsi : String
  enodeb_id : String
  cell_id : String
  tower_name : String
  lat : Float
  lon : Float
  timestamp : Nat
  source : String
  device_model : String
  updated_at : Nat

/-- The columns backfill's `bulk_insert_records` supplies for
`latest_traces` (timestamps abstracted to a totally ordered `Nat`). -/
structure BackfillIncoming where
  msisdn : String
  imsi : String
  enodeb_id : String
  cell_id : String
  tower_name : String
  lat : Float
  lon : Float
  timestamp : Nat
  device_model : String

/-- The columns `RadiusWatcher.insert_records` supplies for
`latest_traces` (radius_watcher.py lines 128-148). -/
structure WatcherIncoming where
  msisdn : String
  imsi : String
  enodeb_id : String
  cell_id : String
  timestamp : Nat

/-- Effect on an existing conflicting row of backfill's upsert
(backfill_radius_history.py lines 226-241): `ON CONFLICT (msisdn) DO
UPDATE SET` every mutable column, `source = 'backfill'`,
`updated_at = NOW()` — no condition whatsoever. -/
def backfill_upsert_row (existing : LatestRow) (r : BackfillIncoming)
    (now : Nat) : LatestRow :=
  { msisdn := existing.msisdn, imsi := r.imsi,
    enodeb_id := r.enodeb_id, cell_id := r.cell_id,
    tower_name := r.tower_name, lat := r.lat, lon := r.lon,
    timestamp := r.timestamp, source := "backfill",
    device_model := r.device_model, updated_at := now }

/-- Effect on an existing conflicting row of the watcher's upsert
(radius_watcher.py lines 138-148): the `DO UPDATE` carries
`WHERE latest_traces.timestamp < EXCLUDED.timestamp`, so an older or
equal-timestamp record leaves the row untouched; even when it fires, the
update sets only imsi/enodeb_id/cell_id/timestamp/source — `updated_at`,
`tower_name`, `lat`, `lon` and `device_model` are not refreshed. -/
def watcher_upsert_row (existing : LatestRow) (r : WatcherIncoming) : LatestRow :=
  if existing.timestamp < r.timestamp then
    { existing with
        imsi := r.imsi, enodeb_id := r.enodeb_id,
        cell_id := r.cell_id, timestamp := r.timestamp, source := "radius" }
  else existing

/-! ### `backfill()` orchestration (backfill_radius_history.py 531-596) -/

/-- A run of `backfill()` described by its decision points: whether the
lock file pre-exists, whether creating it fails, whether database
initialisation raises, the discovered files with a per-file failure flag
(a failed future is caught and logged at lines 577-578), whether
maintenance fails internally, and whether removing the lock file in the
`finally` block raises (which would skip the subsequent `clear()`). -/
structure BWorld where
  lockExists : Bool
  lockCreateFails : Bool
  initFails : Bool
  files : List (String × Bool)
  maintenanceFails : Bool
  lockUnlinkFails : Bool

/-- Observable actions of one `backfill()` run, in program order. -/
inductive BEvent where
  | lockCreated
  | fileProcessed (f : String)
  | fileFailed (f : String)
  | maintenanceDone
  | lockRemoved
  | progressCleared
deriving DecidableEq, Repr

/-- The body of the `try` block of `backfill()`: database initialisation
(whose exception is caught by the `except` at line 586), the early return
when no files are found (line 560 — still runs the `finally`), per-file
processing with per-file failure isolation, and maintenance. -/
def backfillBody (w : BWorld) : List BEvent :=
  if w.initFails then []
  else if w.files.isEmpty then []
  else
    (w.files.map fun fp => if fp.2 then BEvent.fileFailed fp.1 else BEvent.fileProcessed fp.1)
      ++ (if w.maintenanceFails then [] else [BEvent.maintenanceDone])

/-- The `finally` block (lines 588-594): `Path(LOCK_FILE).unlink()` then
`ProgressTracker().clear()` inside one `try` — if the unlink raises, the
`except` swallows it and `clear()` is never reached. -/
def backfillFin (w : BWorld) : List BEvent :=
  if w.lockUnlinkFails then [] else [BEvent.lockRemoved, BEvent.progressCleared]

/-- `backfill()` (lines 531-596): the two early returns before the
`try/finally` (lock already present; lock creation failed), then the body
and — on every path through the `try`, success or not — the `finally`. -/
def backfill (w : BWorld) : List BEvent :=
  if w.lockExists then []
  else if w.lockCreateFails then []
  else BEvent.lockCreated :: (backfillBody w ++ backfillFin w)

/-! ### Concrete sample data for witnesses and counterexamples -/

/-- Trivial oracles: every timestamp parses, every location decodes to
tower `TOWER` at station 4039 / sector 14, device lookup is `Unknown`. -/
def trivialBuildEnv : BuildEnv where
  process_timestamp := fun _ => some "Jan 01 2025 00:00:00 GMT-04"
  process_location := fun _ => some ⟨"TOWER", 4039, 14, 0.0, 0.0⟩
  lookup_device_model := fun _ => "Unknown"
  timestamp_format_ok := fun _ => true

/-- A processing environment in which no database call fails and every
bulk insert reports one row per record. -/
def noFailEnv : PEnv where
  benv := trivialBuildEnv
  bulk_inserted := fun rs => rs.length
  bulk_fails := fun _ => false
  audit_fails := false
  delete_fails := false

/-- Like `noFailEnv` but the audit insert raises. -/
def auditFailEnv : PEnv :=
  { noFailEnv with audit_fails := true }

/-- A raw entry carrying all three required attributes. -/
def sampleEntry : RawEntry :=
  [("Calling-Station-Id", "1234567890"),
   ("3GPP-User-Location-Info", "0x823708401b59370840000fc70e"),
   ("Event-Timestamp", "Jan 01 2025 00:00:00 UTC")]

/-- A raw entry with no `Calling-Station-Id` at all. -/
def noMsisdnEntry : RawEntry :=
  [("3GPP-User-Location-Info", "0x823708401b59370840000fc70e"),
   ("Event-Timestamp", "Jan 01 2025 00:00:00 UTC")]

/-- A stored latest-state row written by the backfill path at event time
10. -/
def storedRow : LatestRow :=
  { msisdn := "1234567890", imsi := "i", enodeb_id := "4039", cell_id := "14",
    tower_name := "TOWER", lat := 0.0, lon := 0.0, timestamp := 10,
    source := "backfill", device_model := "Unknown", updated_at := 100 }

/-- A watcher record for the same subscriber with an older event time. -/
def olderIncoming : WatcherIncoming :=
  { msisdn := "1234567890", imsi := "j", enodeb_id := "1", cell_id := "2",
    timestamp := 5 }

/-- A watcher record for the same subscriber with a newer event time. -/
def newerIncoming : WatcherIncoming :=
  { msisdn := "1234567890", imsi := "j", enodeb_id := "1", cell_id := "2",
    timestamp := 20 }

/-- A `backfill()` run in which the only discovered file fails. -/
def failedRunWorld : BWorld :=
  { lockExists := false, lockCreateFails := false, initFails := false,
    files := [("detail-20251012", true)], maintenanceFails := false,
    lockUnlinkFails := false }

/-! ## Theorems -/

/-! ### C4 — the literal decode scenario -/

/-- C4 counterexample: on the literal code `0x823708401b59370840000fc70e`
the decoders do NOT return station id 4038, and the ECI is not 1033742:
the last 8 hex characters `000fc70e` have value 1033998, not 1033742. -/
theorem c4_claim_false :
    decode_enodeb_cellid "0x823708401b59370840000fc70e" ≠ .ok (4038, 14) ∧
    decode_eci "0x823708401b59370840000fc70e" ≠ some ⟨4038, 14, 1033742⟩ ∧
    (0x000fc70e : Nat) ≠ 1033742 := by
  decide

/-- C4 (amended): decoding `0x823708401b59370840000fc70e` takes the last 8
hex characters `000fc70e`, giving `eci = 0x000fc70e = 1033998`,
`stationId = 1033998 >> 8 = 4039` and `sectorId = 1033998 & 0xFF = 14`;
`decode_enodeb_cellid` returns `(4039, 14)` and `decode_eci` yields
`enodeb_id = 4039`, `cell_id = 14`. -/
theorem c4_decode_literal :
    decode_enodeb_cellid "0x823708401b59370840000fc70e" = .ok (4039, 14) ∧
    decode_eci "0x823708401b59370840000fc70e" = some ⟨4039, 14, 1033998⟩ ∧
    (0x000fc70e : Nat) = 1033998 ∧ 1033998 >>> 8 = 4039 ∧ 1033998 &&& 0xFF = 14 := by
  decide

/-! ### C9 — short location codes -/

/-- C9 counterexample: `decode_enodeb_cellid` (used by backfill and two
other tools) performs no length check: on `"0xff"`, whose significant part
`ff` has only 2 < 8 hex characters, it SUCCEEDS with `(0, 255)` instead of
returning a typed "undecodable" failure. -/
theorem c9_claim_false :
    decode_enodeb_cellid "0xff" = .ok (0, 255) ∧ ("ff" : String).length < 8 := by
  decide

/-- C9 (amended): `decode_eci` returns the typed `None` result, without
raising, on every input whose cleaned form has fewer than 8 hex characters;
`decode_enodeb_cellid` has no such guard — on a short parseable input such
as `"0xff"` it succeeds outright, and on the empty string the `int` call
raises `ValueError` to the caller. -/
theorem c9_short_input_behaviour :
    (∀ s : String, (replace0X (replace0x s.data)).length < 8 → decode_eci s = none) ∧
    decode_enodeb_cellid "0xff" = .ok (0, 255) ∧
    decode_enodeb_cellid "" = .exn := by
  refine ⟨?_, by decide, by decide⟩
  intro s h
  simp only [decode_eci, if_pos h]

/-- C9 witness: the amended theorem applied at the concrete input `"abc"`
(3 significant hex characters). -/
theorem c9_short_input_witness : decode_eci "abc" = none :=
  c9_short_input_behaviour.1 "abc" (by decide)

/-! ### C10 — ProgressTracker.load on malformed checkpoint data -/

/-- C10: `ProgressTracker.load` is all-or-nothing on malformed positions —
one line whose two-field split has a non-integer position makes `load`
return the empty mapping, discarding every well-formed entry — while a
line that does not split into exactly two `|`-separated fields is skipped
without affecting the other entries. -/
theorem c10_load_malformed_behaviour :
    (∀ lines : List String, (∃ l ∈ lines, parseCheckpointLine l = .err) →
      ProgressTracker.load lines = []) ∧
    (∀ (pre post : List String) (l : String), parseCheckpointLine l = .skip →
      ProgressTracker.load (pre ++ l :: post) = ProgressTracker.load (pre ++ post)) := by
  constructor
  · rintro lines ⟨l, hl, he⟩
    have hany : lines.any (fun l => parseCheckpointLine l == .err) = true :=
      List.any_eq_true.2 ⟨l, hl, by simp [he]⟩
    simp [ProgressTracker.load, hany]
  · intro pre post l h
    simp [ProgressTracker.load, List.any_append, List.any_cons,
      List.filterMap_append, List.filterMap_cons, h]

/-- C10 witness: the theorem applied at concrete checkpoint contents — a
bad position (`b|xx`) wipes the whole mapping, and a field-count-mismatch
line (`garbage`) is dropped without touching its neighbours. -/
theorem c10_load_witness :
    ProgressTracker.load ["a|1", "b|xx", "c|2"] = [] ∧
    ProgressTracker.load ["a|1", "garbage", "c|2"] =
      ProgressTracker.load ["a|1", "c|2"] :=
  ⟨c10_load_malformed_behaviour.1 _ ⟨"b|xx", by decide, by decide⟩,
   c10_load_malformed_behaviour.2 ["a|1"] ["c|2"] "garbage" (by decide)⟩

/-! ### C5 — retention of the incomplete trailing block in tail mode -/

/-- Folding the tail loop from a non-empty record accumulator only extends
the blocks produced from an empty accumulator. -/
theorem tailStep_foldl_records (lines : List String) (rs : List (List String))
    (cur : List String) :
    lines.foldl tailStep (rs, cur) =
      (rs ++ (lines.foldl tailStep ([], cur)).1, (lines.foldl tailStep ([], cur)).2) := by
  induction lines generalizing rs cur with
  | nil => simp
  | cons l ls ih =>
      by_cases h : isRecordStart l
      · by_cases hc : cur.isEmpty
        · have hstep : tailStep (rs, cur) l = (rs, []) := by simp [tailStep, h, hc]
          have hstep0 : tailStep ([], cur) l = ([], []) := by simp [tailStep, h, hc]
          rw [List.foldl_cons, List.foldl_cons, hstep, hstep0]
          exact ih rs []
        · have hstep : tailStep (rs, cur) l = (rs ++ [cur], []) := by
            simp [tailStep, h, hc]
          have hstep0 : tailStep ([], cur) l = ([cur], []) := by
            simp [tailStep, h, hc]
          rw [List.foldl_cons, List.foldl_cons, hstep, hstep0,
            ih (rs ++ [cur]) [], ih [cur] []]
          simp [List.append_assoc]
      · have hstep : tailStep (rs, cur) l = (rs, cur ++ [l]) := by simp [tailStep, h]
        have hstep0 : tailStep ([], cur) l = ([], cur ++ [l]) := by simp [tailStep, h]
        rw [List.foldl_cons, List.foldl_cons, hstep, hstep0]
        exact ih rs (cur ++ [l])

/-- C5 (amended): the old watcher (`process_new_lines`) retains the
incomplete trailing block across poll iterations: splitting the incoming
lines into two consecutive poll slices closes exactly the same blocks, in
order, as one uninterrupted slice, and leaves the same carried-over buffer;
the v2 watcher (`RadiusWatcher.process_file`) instead discards the trailing
partial block at the end of every slice (see the C5 counterexample). -/
theorem c5_old_watcher_retains_partial_block (buffer xs ys : List String) :
    (oldPollRun buffer (xs ++ ys)).1 =
      (oldPollRun buffer xs).1 ++ (oldPollRun (oldPollRun buffer xs).2 ys).1 ∧
    (oldPollRun buffer (xs ++ ys)).2 =
      (oldPollRun (oldPollRun buffer xs).2 ys).2 := by
  unfold oldPollRun
  rw [List.foldl_append]
  rw [tailStep_foldl_records ys (xs.foldl tailStep ([], buffer)).1
    (xs.foldl tailStep ([], buffer)).2]
  constructor
  · simp
  · simp

/-- C5 counterexample: in `RadiusWatcher.process_file` a block whose lines
straddle a poll boundary is truncated — slice `["A", " a1"]` followed by
slice `[" a2", "B", " b1"]` closes only the mutilated block `[" a2"]`,
while the uninterrupted run closes `[" a1", " a2"]`: the incomplete
trailing block is not retained across poll iterations. -/
theorem c5_claim_false :
    watcherPollBlocks ["A\n", " a1\n"] = [] ∧
    watcherPollBlocks [" a2\n", "B\n", " b1\n"] = [[" a2\n"]] ∧
    watcherPollBlocks ["A\n", " a1\n", " a2\n", "B\n", " b1\n"] = [[" a1\n", " a2\n"]] ∧
    watcherPollBlocks ["A\n", " a1\n"] ++ watcherPollBlocks [" a2\n", "B\n", " b1\n"] ≠
      watcherPollBlocks ["A\n", " a1\n", " a2\n", "B\n", " b1\n"] := by
  refine ⟨by decide, by decide, by decide, by decide⟩

/-! ### C8 — rejected entries and the counters -/

/-- C8 counterexample: on an entry with no `Calling-Station-Id`, no record
is built — but the `processed` counter does NOT increment either (the
increment sits inside `if record:`), contradicting the claim that
`processed` still increments for rejected entries. -/
theorem c8_claim_false :
    build_record noFailEnv.benv noMsisdnEntry = none ∧
    (pstateOf (entry_step noFailEnv "f" 0 pInit noMsisdnEntry)).processed ≠
      pInit.processed + 1 := by
  constructor
  · rfl
  · decide

/-- C8 (amended): an entry whose `subscriberId`, location code or raw
timestamp is empty after stripping never produces a record, and the
iteration leaves the loop state — in particular both the `processed` and
`inserted` counters — completely unchanged. -/
theorem c8_rejected_entry_not_counted (env : PEnv) (f : String) (n : Nat)
    (s : PState) (entry : RawEntry)
    (h : pyStripS (pyGetD entry "Calling-Station-Id" "") = "" ∨
         pyStripS (pyGetD entry "3GPP-User-Location-Info" "") = "" ∨
         pyStripS (pyGetD entry "Event-Timestamp" "") = "") :
    build_record env.benv entry = none ∧
    entry_step env f n s entry = .ok s := by
  have hb : build_record env.benv entry = none := by
    unfold build_record
    rw [if_pos h]
  exact ⟨hb, by simp [entry_step, hb]⟩

/-- C8 witness: the amended theorem applied to a concrete entry with no
subscriber id, at a concrete loop state. -/
theorem c8_rejected_entry_witness :
    build_record noFailEnv.benv noMsisdnEntry = none ∧
    entry_step noFailEnv "detail-x" 3 pInit noMsisdnEntry = .ok pInit :=
  c8_rejected_entry_not_counted noFailEnv "detail-x" 3 pInit noMsisdnEntry
    (Or.inl rfl)

/-! ### C1 — resumability of `process_log_file` -/

/-- C1: `process_log_file` loads the checkpoint store into `resume_pos`
but never consults it — its outcome is identical for every checkpoint
store, so a restarted run re-reads the file from entry 0. Concretely, with
a checkpoint recording position 1 for the file, a run over two valid
entries still processes both (`processed = 2`) instead of only the
entry after the checkpoint. -/
theorem c1_resume_position_ignored :
    (∀ (env : PEnv) (cp cp' : List String) (f : String) (es : List RawEntry),
      process_log_file env cp f es = process_log_file env cp' f es) ∧
    dictGetD (ProgressTracker.load ["logs/f|1"]) "logs/f" 0 = 1 ∧
    processedOf
      (process_log_file noFailEnv ["logs/f|1"] "logs/f" [sampleEntry, sampleEntry]) = 2 := by
  refine ⟨fun env cp cp' f es => rfl, by decide, ?_⟩
  rfl

/-! ### C7 — deletion only after the audit commit -/

/-- An `entry_step` only appends flush/checkpoint/bulk-failure events. -/
theorem entry_step_events (env : PEnv) (f : String) (n : Nat) (s : PState)
    (a : RawEntry) :
    (pstateOf (entry_step env f n s a)).events = s.events ∨
    (pstateOf (entry_step env f n s a)).events =
      s.events ++ [FEvent.bulkInsertFailed] ∨
    ∃ c p, (pstateOf (entry_step env f n s a)).events =
      s.events ++ [FEvent.flushed c, FEvent.checkpointSaved f p] := by
  unfold entry_step
  cases build_record env.benv a with
  | none => exact Or.inl rfl
  | some r =>
      dsimp only
      split
      · split
        · exact Or.inr (Or.inl rfl)
        · exact Or.inr (Or.inr ⟨_, _, rfl⟩)
      · exact Or.inl rfl

/-- If the state's trace holds only loop events, it still does after one
`entry_step`. -/
theorem entry_step_preserves_loop (env : PEnv) (f : String) (n : Nat)
    (s : PState) (a : RawEntry)
    (hs : ∀ e ∈ s.events, isLoopEvent e = true) :
    ∀ e ∈ (pstateOf (entry_step env f n s a)).events, isLoopEvent e = true := by
  rcases entry_step_events env f n s a with h | h | ⟨c, p, h⟩ <;> rw [h] <;>
    intro e he
  · exact hs e he
  · rcases List.mem_append.1 he with h1 | h2
    · exact hs e h1
    · simp only [List.mem_singleton] at h2
      subst h2; rfl
  · rcases List.mem_append.1 he with h1 | h2
    · exact hs e h1
    · rcases List.mem_cons.1 h2 with h3 | h3
      · subst h3; rfl
      · simp only [List.mem_singleton] at h3
        subst h3; rfl

/-- The entry loop emits only loop events. -/
theorem runEntries_events_loop (env : PEnv) (f : String) (es : List RawEntry) :
    ∀ (s : PState) (n : Nat), (∀ e ∈ s.events, isLoopEvent e = true) →
      ∀ e ∈ (pstateOf (runEntries env f s n es)).events, isLoopEvent e = true := by
  induction es with
  | nil =>
      intro s n hs
      simpa [runEntries, pstateOf] using hs
  | cons a rest ih =>
      intro s n hs
      have hpres := entry_step_preserves_loop env f n s a hs
      rcases hstep : entry_step env f n s a with s' | s'
      · rw [hstep] at hpres
        simpa [runEntries, hstep, pstateOf] using hpres
      · rw [hstep] at hpres
        have := ih s' (n + 1) (by simpa [pstateOf] using hpres)
        simpa [runEntries, hstep] using this

/-- The final flush also emits only loop events. -/
theorem finalFlush_events_loop (env : PEnv) (s : PState)
    (hs : ∀ e ∈ s.events, isLoopEvent e = true) :
    ∀ e ∈ (pstateOf (finalFlush env s)).events, isLoopEvent e = true := by
  unfold finalFlush
  split
  · simpa [pstateOf] using hs
  · split
    · intro e he
      simp only [pstateOf] at he
      rcases List.mem_append.1 he with h1 | h2
      · exact hs e h1
      · simp only [List.mem_singleton] at h2
        subst h2; rfl
    · intro e he
      simp only [pstateOf] at he
      rcases List.mem_append.1 he with h1 | h2
      · exact hs e h1
      · simp only [List.mem_singleton] at h2
        subst h2; rfl

/-- A trace of loop events contains neither a deletion nor an audit. -/
theorem loop_events_no_epilogue (l : List FEvent)
    (h : ∀ e ∈ l, isLoopEvent e = true) (g : String) :
    FEvent.fileDeleted g ∉ l ∧ FEvent.auditCommitted g ∉ l ∧
    FEvent.auditFailed g ∉ l := by
  refine ⟨fun hm => ?_, fun hm => ?_, fun hm => ?_⟩ <;>
    simpa [isLoopEvent] using h _ hm

/-- C7: on every execution path of `process_log_file`, the source file is
deleted only after the audit insert has committed: if the audit write
raises, no deletion event ever occurs, and whenever a deletion event
occurs the trace ends with the audit commit immediately followed by the
deletion. -/
theorem c7_delete_only_after_audit (env : PEnv) (cp : List String)
    (f : String) (es : List RawEntry) :
    (env.audit_fails = true →
      FEvent.fileDeleted f ∉ eventsOf (process_log_file env cp f es)) ∧
    (FEvent.fileDeleted f ∈ eventsOf (process_log_file env cp f es) →
      ∃ pre, eventsOf (process_log_file env cp f es) =
        pre ++ [FEvent.auditCommitted f, FEvent.fileDeleted f]) := by
  have hrunLoop : ∀ e ∈ (pstateOf (runEntries env f pInit 0 es)).events,
      isLoopEvent e = true :=
    runEntries_events_loop env f es pInit 0 (by simp [pInit])
  rcases hrun : runEntries env f pInit 0 es with s | s
  · -- the entry loop raised: no audit, no deletion
    rw [hrun] at hrunLoop
    simp only [pstateOf] at hrunLoop
    have hnd := (loop_events_no_epilogue s.events hrunLoop f).1
    simp only [process_log_file, hrun, eventsOf]
    exact ⟨fun _ hm => absurd hm hnd, fun hm => absurd hm hnd⟩
  · rw [hrun] at hrunLoop
    simp only [pstateOf] at hrunLoop
    have hffLoop : ∀ e ∈ (pstateOf (finalFlush env s)).events, isLoopEvent e = true :=
      finalFlush_events_loop env s hrunLoop
    rcases hff : finalFlush env s with s' | s'
    · -- the final flush raised
      rw [hff] at hffLoop
      simp only [pstateOf] at hffLoop
      have hnd := (loop_events_no_epilogue s'.events hffLoop f).1
      simp only [process_log_file, hrun, hff, eventsOf]
      exact ⟨fun _ hm => absurd hm hnd, fun hm => absurd hm hnd⟩
    · rw [hff] at hffLoop
      simp only [pstateOf] at hffLoop
      rcases loop_events_no_epilogue s'.events hffLoop f with ⟨hnd, hnc, _⟩
      simp only [process_log_file, hrun, hff, auditAndDelete]
      by_cases ha : env.audit_fails
      · -- audit raises: trace is loop events plus the audit failure
        rw [if_pos ha]
        simp only [eventsOf]
        constructor
        · intro _ hm
          rcases List.mem_append.1 hm with h1 | h2
          · exact absurd h1 hnd
          · simp at h2
        · intro hm
          rcases List.mem_append.1 hm with h1 | h2
          · exact absurd h1 hnd
          · simp at h2
      · rw [if_neg ha]
        by_cases hd : env.delete_fails
        · -- deletion raises (and is swallowed): audit committed, no delete
          rw [if_pos hd]
          simp only [eventsOf]
          constructor
          · intro hfalse
            exact absurd hfalse ha
          · intro hm
            rcases List.mem_append.1 hm with h1 | h2
            · exact absurd h1 hnd
            · simp at h2
        · rw [if_neg hd]
          simp only [eventsOf]
          constructor
          · intro hfalse
            exact absurd hfalse ha
          · intro _
            exact ⟨s'.events, by simp⟩

/-- C7 witness: the theorem applied to a concrete environment whose audit
write raises — the file is then never deleted. -/
theorem c7_delete_only_after_audit_witness :
    FEvent.fileDeleted "detail-x" ∉
      eventsOf (process_log_file auditFailEnv [] "detail-x" [sampleEntry]) :=
  (c7_delete_only_after_audit auditFailEnv [] "detail-x" [sampleEntry]).1 rfl

/-! ### C2 — transactionality of one logical batch -/

/-- C2 counterexample: the `radius_parser.process_file` path updates one
table without the other in two distinct scenarios. (1) With no statement
errors, a crash after `upsert_latest_traces`'s commit but before
`insert_radius_history` runs (stop point 2) leaves the latest-state table
durably updated and the history table not. (2) With a handled database
error inside `upsert_latest_traces` (rollback, return 0 — `process_file`
continues regardless), the completed batch commits history rows while the
latest-state update never committed. Either way the batch is not
transactional. -/
theorem c2_claim_false :
    committedWrites (parser_batch_ops ⟨false, false⟩) 2 = [TableWrite.latest] ∧
    TableWrite.history ∉ committedWrites (parser_batch_ops ⟨false, false⟩) 2 ∧
    committedWrites (parser_batch_ops ⟨true, false⟩) 3 = [TableWrite.history] ∧
    TableWrite.latest ∉ committedWrites (parser_batch_ops ⟨true, false⟩) 3 := by
  decide

/-- C2 (amended): backfill's `bulk_insert_records` is transactional — a
crash at any point leaves both tables updated or neither, because a
single commit covers both statements and its error path re-raises without
committing. The `radius_parser.process_file` path is not transactional in
either direction: each helper commits separately, so on the error-free
run a crash can leave the latest-state update committed without the
history row, and a handled `execute_values` failure inside
`upsert_latest_traces` (caught: rollback, return 0) lets the batch finish
by committing history rows although the latest-state update was rolled
back and never committed. -/
theorem c2_commit_structure :
    (∀ k, committedWrites bulk_insert_records_ops k = [] ∨
      committedWrites bulk_insert_records_ops k =
        [TableWrite.history, TableWrite.latest]) ∧
    (∀ k, committedWrites (parser_batch_ops ⟨false, false⟩) k = [] ∨
      committedWrites (parser_batch_ops ⟨false, false⟩) k = [TableWrite.latest] ∨
      committedWrites (parser_batch_ops ⟨false, false⟩) k =
        [TableWrite.latest, TableWrite.history]) ∧
    (∀ k, committedWrites (parser_batch_ops ⟨true, false⟩) k = [] ∨
      committedWrites (parser_batch_ops ⟨true, false⟩) k = [TableWrite.history]) := by
  refine ⟨fun k => ?_, fun k => ?_, fun k => ?_⟩
  · match k with
    | 0 => exact Or.inl rfl
    | 1 => exact Or.inl rfl
    | 2 => exact Or.inl rfl
    | n + 3 =>
        refine Or.inr ?_
        have ht : bulk_insert_records_ops.take (n + 3) = bulk_insert_records_ops :=
          List.take_of_length_le (by simp [bulk_insert_records_ops])
        rw [committedWrites, ht]
        rfl
  · match k with
    | 0 => exact Or.inl rfl
    | 1 => exact Or.inl rfl
    | 2 => exact Or.inr (Or.inl rfl)
    | 3 => exact Or.inr (Or.inl rfl)
    | n + 4 =>
        refine Or.inr (Or.inr ?_)
        have ht : (parser_batch_ops ⟨false, false⟩).take (n + 4) =
            parser_batch_ops ⟨false, false⟩ :=
          List.take_of_length_le
            (by simp [parser_batch_ops, upsert_latest_traces_ops,
              insert_radius_history_ops])
        rw [committedWrites, ht]
        rfl
  · match k with
    | 0 => exact Or.inl rfl
    | 1 => exact Or.inl rfl
    | 2 => exact Or.inl rfl
    | n + 3 =>
        refine Or.inr ?_
        have ht : (parser_batch_ops ⟨true, false⟩).take (n + 3) =
            parser_batch_ops ⟨true, false⟩ :=
          List.take_of_length_le
            (by simp [parser_batch_ops, upsert_latest_traces_ops,
              insert_radius_history_ops])
        rw [committedWrites, ht]
        rfl

/-! ### C3 — latest-state upsert conflict policies -/

/-- C3 counterexample: `RadiusWatcher.insert_records` does NOT overwrite
unconditionally: with a stored row at event time 10 (written by backfill)
and an incoming watcher record at event time 5, the `WHERE
latest_traces.timestamp < EXCLUDED.timestamp` guard blocks the update —
the row keeps its old fields and its `source = 'backfill'` tag instead of
being overwritten with `'radius'`. -/
theorem c3_claim_false :
    watcher_upsert_row storedRow olderIncoming = storedRow ∧
    (watcher_upsert_row storedRow olderIncoming).source ≠ "radius" ∧
    (watcher_upsert_row storedRow olderIncoming).timestamp ≠
      olderIncoming.timestamp := by
  refine ⟨rfl, ?_, ?_⟩
  · decide
  · decide

/-- C3 (amended): backfill's upsert overwrites every mutable column,
refreshes `updated_at` and forces `source = 'backfill'` unconditionally;
the watcher's upsert instead updates only when the stored event time is
strictly older than the incoming one, and even then it sets `source =
'radius'` without refreshing `updated_at`, `tower_name` or
`device_model`. -/
theorem c3_upsert_policies :
    (∀ (row : LatestRow) (r : BackfillIncoming) (now : Nat),
      backfill_upsert_row row r now =
        { msisdn := row.msisdn, imsi := r.imsi, enodeb_id := r.enodeb_id,
          cell_id := r.cell_id, tower_name := r.tower_name, lat := r.lat,
          lon := r.lon, timestamp := r.timestamp, source := "backfill",
          device_model := r.device_model, updated_at := now }) ∧
    (∀ (row : LatestRow) (r : WatcherIncoming), r.timestamp ≤ row.timestamp →
      watcher_upsert_row row r = row) ∧
    (∀ (row : LatestRow) (r : WatcherIncoming), row.timestamp < r.timestamp →
      (watcher_upsert_row row r).source = "radius" ∧
      (watcher_upsert_row row r).updated_at = row.updated_at ∧
      (watcher_upsert_row row r).tower_name = row.tower_name ∧
      (watcher_upsert_row row r).device_model = row.device_model) := by
  refine ⟨fun row r now => rfl, fun row r h => ?_, fun row r h => ?_⟩
  · unfold watcher_upsert_row
    rw [if_neg (by omega)]
  · unfold watcher_upsert_row
    rw [if_pos h]
    exact ⟨rfl, rfl, rfl, rfl⟩

/-- C3 witness: the amended theorem applied at the concrete stored row and
the two concrete incoming records. -/
theorem c3_upsert_policies_witness :
    watcher_upsert_row storedRow olderIncoming = storedRow ∧
    (watcher_upsert_row storedRow newerIncoming).source = "radius" ∧
    (watcher_upsert_row storedRow newerIncoming).updated_at =
      storedRow.updated_at :=
  ⟨c3_upsert_policies.2.1 storedRow olderIncoming (by decide),
   (c3_upsert_policies.2.2 storedRow newerIncoming (by decide)).1,
   (c3_upsert_policies.2.2 storedRow newerIncoming (by decide)).2.1⟩

/-! ### C6 — when `ProgressTracker.clear()` runs -/

/-- The `try` body of `backfill()` never invokes `clear()`. -/
theorem progressCleared_not_in_body (w : BWorld) :
    BEvent.progressCleared ∉ backfillBody w := by
  unfold backfillBody
  split
  · simp
  · split
    · simp
    · intro h
      rcases List.mem_append.1 h with h1 | h2
      · rcases List.mem_map.1 h1 with ⟨fp, _, he⟩
        rcases fp with ⟨g, b⟩
        cases b <;> simp at he
      · by_cases hm : w.maintenanceFails
        · rw [if_pos hm] at h2
          simp at h2
        · rw [if_neg hm] at h2
          simp at h2

/-- C6 (amended): `ProgressTracker().clear()` is invoked on every run of
`backfill()` that gets past the two lock guards and whose lock-file
removal does not raise — regardless of whether processing succeeded,
failed per-file, or aborted with an exception (the call sits in the
`finally` block); the checkpoint store survives only when the lock already
exists, creating it fails, or removing it raises. -/
theorem c6_clear_runs_in_finally (w : BWorld) :
    BEvent.progressCleared ∈ backfill w ↔
      w.lockExists = false ∧ w.lockCreateFails = false ∧
        w.lockUnlinkFails = false := by
  have hbody := progressCleared_not_in_body w
  rcases hw : w with ⟨le, lcf, inf, files, mf, luf⟩
  rw [hw] at hbody
  cases le <;> cases lcf <;> cases luf <;>
    simp [backfill, backfillFin, hbody]

/-- C6 counterexample: a run in which the only discovered file FAILS still
reaches `ProgressTracker().clear()` in the `finally` block — the
checkpoint store is wiped even though processing did not succeed, so the
next run cannot resume. -/
theorem c6_claim_false :
    BEvent.fileFailed "detail-20251012" ∈ backfill failedRunWorld ∧
    BEvent.progressCleared ∈ backfill failedRunWorld := by
  decide

end EnetTracer
